import Mathlib
set_option maxRecDepth 4000

/-!
Verification of the `wapp` weather CLI core: the provider abstraction and
request-construction logic (`src/providers/mod.rs`, `src/providers/openweather.rs`,
`src/providers/weatherapi.rs`).

The environment store is modelled as a key-to-optional-string lookup, as the
code only reads `std::env::var`.  The HTTP transport is external: `get_data`
is embedded up to the request URL it constructs (everything before the final
`reqwest::get(url)`), which is a pure function of (stored config, city, kind).
-/

namespace Wapp

/-- An environment: a key-to-optional-string lookup (models `std::env::var`). -/
def Env : Type := String → Option String

/-- The error taxonomy of the core.  The Rust code surfaces these as
`anyhow::Error` values; the distinct construction sites are kept apart here. -/
inductive ProvError where
  /-- `env::var(name)` failed in a `from_env` constructor (required variable absent). -/
  | missingCredential (var : String)
  /-- `provider_factory`: `"Unsupported provider: {}"` with the offending name. -/
  | unsupportedProvider (name : String)
  /-- `get_data`: `"Unknown data type: {}"` with the offending kind string. -/
  | unsupportedRequestKind (kind : String)
  deriving DecidableEq

/-! ### Percent-encoding (`urlencoding::encode`)

`urlencoding::encode` iterates over the UTF-8 bytes of the input and keeps
`A-Z a-z 0-9 - . _ ~` as-is, replacing every other byte `b` with `%XX`
(uppercase hex).  We embed the UTF-8 byte expansion of a `Char` explicitly. -/

/-- The UTF-8 byte sequence of a character (standard encoding of its scalar value). -/
def utf8Bytes (c : Char) : List Nat :=
  let n := c.toNat
  if n < 0x80 then [n]
  else if n < 0x800 then [0xC0 + n / 64, 0x80 + n % 64]
  else if n < 0x10000 then [0xE0 + n / 4096, 0x80 + n / 64 % 64, 0x80 + n % 64]
  else [0xF0 + n / 262144, 0x80 + n / 4096 % 64, 0x80 + n / 64 % 64, 0x80 + n % 64]

/-- The UTF-8 bytes of a list of characters. -/
def listBytes (l : List Char) : List Nat :=
  (l.map utf8Bytes).flatten

/-- The UTF-8 bytes of a string (models Rust's `str::bytes`). -/
def strBytes (s : String) : List Nat :=
  listBytes s.data

/-- The bytes `urlencoding::encode` leaves untouched: `A-Z a-z 0-9 - . _ ~`. -/
def isUnreservedByte (b : Nat) : Bool :=
  (0x30 ≤ b && b ≤ 0x39) || (0x41 ≤ b && b ≤ 0x5A) || (0x61 ≤ b && b ≤ 0x7A)
    || b == 0x2D || b == 0x2E || b == 0x5F || b == 0x7E

/-- Uppercase hex digit for a nibble, as in `urlencoding`'s `"0123456789ABCDEF"` table. -/
def hexDigitChar (n : Nat) : Char :=
  if n < 10 then Char.ofNat (0x30 + n) else Char.ofNat (0x41 + (n - 10))

/-- `urlencoding::encode` on a single byte: kept verbatim if unreserved,
otherwise `%` followed by two uppercase hex digits. -/
def encodeByte (b : Nat) : List Char :=
  if isUnreservedByte b then [Char.ofNat b]
  else ['%', hexDigitChar (b / 16), hexDigitChar (b % 16)]

/-- `urlencoding::encode`: percent-encode every non-unreserved UTF-8 byte. -/
def encode (s : String) : String :=
  ⟨((strBytes s).map encodeByte).flatten⟩

/-! ### Percent-decoding and UTF-8 decoding

The repository never decodes URLs itself; these definitions express the
spec-side round-trip property "percent-decoding the encoded segment recovers
the original city string": standard `%XX`-sequence decoding to bytes followed
by standard UTF-8 decoding of the byte sequence. -/

/-- The value of a hex digit character (both cases accepted). -/
def hexVal (c : Char) : Option Nat :=
  if 0x30 ≤ c.toNat ∧ c.toNat ≤ 0x39 then some (c.toNat - 0x30)
  else if 0x41 ≤ c.toNat ∧ c.toNat ≤ 0x46 then some (c.toNat - 0x37)
  else if 0x61 ≤ c.toNat ∧ c.toNat ≤ 0x66 then some (c.toNat - 0x57)
  else none

/-- Percent-decode a character sequence into the byte sequence it denotes:
`%XX` becomes the byte `XX`, any other character stands for its own code. -/
def percentDecodeBytes : List Char → Option (List Nat)
  | [] => some []
  | c :: rest =>
    if c = '%' then
      match rest with
      | c1 :: c2 :: rest2 =>
        match hexVal c1, hexVal c2 with
        | some h, some l => (percentDecodeBytes rest2).map (fun bs => (h * 16 + l) :: bs)
        | _, _ => none
      | _ => none
    else
      (percentDecodeBytes rest).map (fun bs => c.toNat :: bs)

/-- Whether a byte is a UTF-8 continuation byte (`10xxxxxx`). -/
def isCont (b : Nat) : Bool := 0x80 ≤ b && b < 0xC0

/-- Decode one UTF-8 code point from the front of a byte sequence, returning
its scalar value and the remaining bytes (strict: rejects stray continuation
bytes, overlong forms, surrogates and out-of-range scalar values). -/
def utf8DecodeOne : List Nat → Option (Nat × List Nat)
  | [] => none
  | b0 :: rest =>
    if b0 < 0x80 then some (b0, rest)
    else if b0 < 0xE0 then
      match rest with
      | b1 :: rest2 =>
        if 0xC2 ≤ b0 ∧ isCont b1 then some ((b0 - 0xC0) * 64 + (b1 - 0x80), rest2)
        else none
      | [] => none
    else if b0 < 0xF0 then
      match rest with
      | b1 :: b2 :: rest3 =>
        let n := (b0 - 0xE0) * 4096 + (b1 - 0x80) * 64 + (b2 - 0x80)
        if (isCont b1 ∧ isCont b2) ∧ 0x800 ≤ n ∧ (n < 0xD800 ∨ 0xE000 ≤ n) then
          some (n, rest3)
        else none
      | _ => none
    else
      match rest with
      | b1 :: b2 :: b3 :: rest4 =>
        let n := (b0 - 0xF0) * 262144 + (b1 - 0x80) * 4096 + (b2 - 0x80) * 64 + (b3 - 0x80)
        if (b0 < 0xF5 ∧ isCont b1) ∧ (isCont b2 ∧ isCont b3) ∧ 0x10000 ≤ n ∧ n < 0x110000 then
          some (n, rest4)
        else none
      | _ => none

/-- `utf8DecodeOne` always consumes at least one byte. -/
lemma utf8DecodeOne_length (l : List Nat) (n : Nat) (rest : List Nat)
    (h : utf8DecodeOne l = some (n, rest)) : rest.length < l.length := by
  rcases l with _ | ⟨b0, _ | ⟨b1, _ | ⟨b2, _ | ⟨b3, r4⟩⟩⟩⟩ <;>
    simp only [utf8DecodeOne] at h <;>
    first
      | (split_ifs at h <;> simp_all <;> omega)
      | simp_all

/-- Decode a UTF-8 byte sequence into its character sequence. -/
def utf8Decode (l : List Nat) : Option (List Char) :=
  match h : utf8DecodeOne l with
  | some (n, rest) => (utf8Decode rest).map (fun cs => Char.ofNat n :: cs)
  | none => if l = [] then some [] else none
termination_by l.length
decreasing_by exact utf8DecodeOne_length l n rest h

/-- Percent-decode a string: `%XX` sequences to bytes, then UTF-8 decode. -/
def percentDecode (s : String) : Option String :=
  (percentDecodeBytes s.data).bind fun bs => (utf8Decode bs).map fun cs => ⟨cs⟩

/-! ### Provider structures and constructors -/

/-- `OpenWeatherProvider` (ServiceA), `src/providers/openweather.rs`. -/
structure OpenWeatherProvider where
  api_key : String
  base_url : String
  units : Option String
  lang : Option String
  deriving DecidableEq

/-- `OpenWeatherProvider::from_env`: requires `OPENWEATHER_KEY`; defaults the
base URL; the modifiers stay optional. -/
def OpenWeatherProvider.from_env (env : Env) : Except ProvError OpenWeatherProvider :=
  match env "OPENWEATHER_KEY" with
  | none => .error (.missingCredential "OPENWEATHER_KEY")
  | some key => .ok
      { api_key := key
        base_url := (env "OPENWEATHER_BASE_URL").getD "https://api.openweathermap.org/data/3.0"
        units := env "OPENWEATHER_UNITS"
        lang := env "OPENWEATHER_LANG" }

/-- `WeatherApiProvider` (ServiceB), `src/providers/weatherapi.rs`. -/
structure WeatherApiProvider where
  api_key : String
  base_url : String
  lang : Option String
  deriving DecidableEq

/-- `WeatherApiProvider::from_env`: requires `WEATHERAPI_KEY`; defaults the
base URL; the language modifier stays optional. -/
def WeatherApiProvider.from_env (env : Env) : Except ProvError WeatherApiProvider :=
  match env "WEATHERAPI_KEY" with
  | none => .error (.missingCredential "WEATHERAPI_KEY")
  | some key => .ok
      { api_key := key
        base_url := (env "WEATHERAPI_BASE_URL").getD "https://api.weatherapi.com/v1"
        lang := env "WEATHERAPI_LANG" }

/-! ### Request-URL construction (`get_data` up to the HTTP call) -/

/-- The optional query-parameter fragment `&name=value` appended by the
`if let Some(v) = &self.v { url.push_str("&name="); url.push_str(v); }` blocks. -/
def optParam (name : String) : Option String → String
  | some v => "&" ++ name ++ "=" ++ v
  | none => ""

/-- The request URL constructed by `OpenWeatherProvider::get_data` for
`(city, kind)` before the HTTP GET is issued. -/
def OpenWeatherProvider.requestUrl (p : OpenWeatherProvider) (city kind : String) :
    Except ProvError String :=
  let city := encode city
  if kind = "now" then
    .ok (p.base_url ++ "/weather?q=" ++ city ++ "&appid=" ++ p.api_key
        ++ optParam "units" p.units ++ optParam "lang" p.lang)
  else if kind = "forecast" ∨ kind = "tomorrow" then
    .ok (p.base_url ++ "/forecast?q=" ++ city ++ "&appid=" ++ p.api_key
        ++ optParam "units" p.units ++ optParam "lang" p.lang)
  else
    .error (.unsupportedRequestKind kind)

/-- The request URL constructed by `WeatherApiProvider::get_data` for
`(city, kind)` before the HTTP GET is issued. -/
def WeatherApiProvider.requestUrl (p : WeatherApiProvider) (city kind : String) :
    Except ProvError String :=
  let city := encode city
  if kind = "now" then
    .ok (p.base_url ++ "/current.json?key=" ++ p.api_key ++ "&q=" ++ city
        ++ optParam "lang" p.lang)
  else if kind = "forecast" ∨ kind = "tomorrow" then
    let days : Nat := if kind = "tomorrow" then 1 else 3
    .ok (p.base_url ++ "/forecast.json?key=" ++ p.api_key ++ "&q=" ++ city
        ++ "&days=" ++ toString days ++ optParam "lang" p.lang)
  else
    .error (.unsupportedRequestKind kind)

/-! ### Provider resolver (`provider_factory`) -/

/-- `AppConfig` (`src/config.rs`): the persisted provider name. -/
structure AppConfig where
  provider : String

/-- A constructed provider instance (`Box<dyn ApiProvider>`): one of the two
concrete strategies, each implementing the contract. -/
inductive ProviderHandle where
  | openWeather (p : OpenWeatherProvider)
  | weatherApi (p : WeatherApiProvider)
  deriving DecidableEq

/-- The contract's fetch operation on a resolved handle, embedded up to the
request URL it constructs (dynamic dispatch over the two strategies). -/
def ProviderHandle.requestUrl : ProviderHandle → String → String → Except ProvError String
  | .openWeather p, city, kind => p.requestUrl city kind
  | .weatherApi p, city, kind => p.requestUrl city kind

/-- `provider_factory` (`src/providers/mod.rs`): resolve the configured name
to a constructed provider, propagating `from_env` failures. -/
def provider_factory (cfg : AppConfig) (env : Env) : Except ProvError ProviderHandle :=
  if cfg.provider = "weatherapi" then
    (WeatherApiProvider.from_env env).map .weatherApi
  else if cfg.provider = "openweather" then
    (OpenWeatherProvider.from_env env).map .openWeather
  else
    .error (.unsupportedProvider cfg.provider)


/-- The characters after the first occurrence of `sep`, if any. -/
def afterChar (sep : Char) : List Char → Option (List Char)
  | [] => none
  | c :: rest => if c = sep then some rest else afterChar sep rest

/-- Split a character sequence at every occurrence of `sep`. -/
def splitOnChar (sep : Char) : List Char → List (List Char)
  | [] => [[]]
  | c :: rest =>
    let r := splitOnChar sep rest
    if c = sep then [] :: r
    else
      match r with
      | h :: t => (c :: h) :: t
      | [] => [[c]]

/-- The `&`-separated components of the query part of a URL (the text after
the first `?`), as a consumer of the URL would split it. -/
def queryParams (url : String) : List String :=
  match afterChar '?' url.data with
  | some q => (splitOnChar '&' q).map fun l => ⟨l⟩
  | none => []

/-! ### Round-trip lemmas: percent-decoding an encoded string recovers it -/

lemma char_toNat_lt (c : Char) : c.toNat < 0x110000 := by
  rcases c.valid with h | ⟨h1, h2⟩
  · exact Nat.lt_trans h (by norm_num)
  · exact h2

lemma utf8Bytes_lt (c : Char) : ∀ b ∈ utf8Bytes c, b < 256 := by
  have hv := char_toNat_lt c
  simp only [utf8Bytes]
  split_ifs with h1 h2 h3 <;> intro b hb <;> simp_all <;> omega

lemma utf8Decode_nil : utf8Decode [] = some [] := by
  rw [utf8Decode]
  split
  · rename_i n rest heq
    simp [utf8DecodeOne] at heq
  · simp

lemma utf8Decode_step (l : List Nat) (n : Nat) (rest : List Nat)
    (h : utf8DecodeOne l = some (n, rest)) :
    utf8Decode l = (utf8Decode rest).map (fun cs => Char.ofNat n :: cs) := by
  rw [utf8Decode]
  split <;> rename_i heq <;> rw [h] at heq <;> simp_all

lemma utf8DecodeOne_utf8Bytes (c : Char) (bs : List Nat) :
    utf8DecodeOne (utf8Bytes c ++ bs) = some (c.toNat, bs) := by
  have hval : c.toNat < 0xD800 ∨ (0xDFFF < c.toNat ∧ c.toNat < 0x110000) := c.valid
  by_cases h1 : c.toNat < 0x80
  · simp only [utf8Bytes, if_pos h1, List.cons_append, List.nil_append]
    simp only [utf8DecodeOne, if_pos h1]
  · by_cases h2 : c.toNat < 0x800
    · simp only [utf8Bytes, if_neg h1, if_pos h2, List.cons_append, List.nil_append]
      have hc1 : ¬ (0xC0 + c.toNat / 64 < 0x80) := by omega
      have hc2 : 0xC0 + c.toNat / 64 < 0xE0 := by omega
      have hc3 : 0xC2 ≤ 0xC0 + c.toNat / 64 ∧ isCont (0x80 + c.toNat % 64) := by
        constructor
        · omega
        · simp [isCont]; omega
      simp only [utf8DecodeOne, if_neg hc1, if_pos hc2, if_pos hc3]
      congr 1
      congr 1
      omega
    · by_cases h3 : c.toNat < 0x10000
      · simp only [utf8Bytes, if_neg h1, if_neg h2, if_pos h3, List.cons_append, List.nil_append]
        have hc1 : ¬ (0xE0 + c.toNat / 4096 < 0x80) := by omega
        have hc2 : ¬ (0xE0 + c.toNat / 4096 < 0xE0) := by omega
        have hc3 : 0xE0 + c.toNat / 4096 < 0xF0 := by omega
        have hn : (0xE0 + c.toNat / 4096 - 0xE0) * 4096 + (0x80 + c.toNat / 64 % 64 - 0x80) * 64
            + (0x80 + c.toNat % 64 - 0x80) = c.toNat := by omega
        have hc4 : (isCont (0x80 + c.toNat / 64 % 64) ∧ isCont (0x80 + c.toNat % 64)) ∧
            0x800 ≤ (0xE0 + c.toNat / 4096 - 0xE0) * 4096 + (0x80 + c.toNat / 64 % 64 - 0x80) * 64
              + (0x80 + c.toNat % 64 - 0x80) ∧
            ((0xE0 + c.toNat / 4096 - 0xE0) * 4096 + (0x80 + c.toNat / 64 % 64 - 0x80) * 64
              + (0x80 + c.toNat % 64 - 0x80) < 0xD800 ∨
             0xE000 ≤ (0xE0 + c.toNat / 4096 - 0xE0) * 4096 + (0x80 + c.toNat / 64 % 64 - 0x80) * 64
              + (0x80 + c.toNat % 64 - 0x80)) := by
          refine ⟨⟨?_, ?_⟩, ?_, ?_⟩
          · simp [isCont]; omega
          · simp [isCont]; omega
          · omega
          · omega
        simp only [utf8DecodeOne, if_neg hc1, if_neg hc2, if_pos hc3, if_pos hc4]
        rw [hn]
      · have hv : c.toNat < 0x110000 := char_toNat_lt c
        simp only [utf8Bytes, if_neg h1, if_neg h2, if_neg h3, List.cons_append, List.nil_append]
        have hc1 : ¬ (0xF0 + c.toNat / 262144 < 0x80) := by omega
        have hc2 : ¬ (0xF0 + c.toNat / 262144 < 0xE0) := by omega
        have hc3 : ¬ (0xF0 + c.toNat / 262144 < 0xF0) := by omega
        have hn : (0xF0 + c.toNat / 262144 - 0xF0) * 262144 + (0x80 + c.toNat / 4096 % 64 - 0x80) * 4096
            + (0x80 + c.toNat / 64 % 64 - 0x80) * 64 + (0x80 + c.toNat % 64 - 0x80) = c.toNat := by
          omega
        have hc4 : (0xF0 + c.toNat / 262144 < 0xF5 ∧ isCont (0x80 + c.toNat / 4096 % 64)) ∧
            (isCont (0x80 + c.toNat / 64 % 64) ∧ isCont (0x80 + c.toNat % 64)) ∧
            0x10000 ≤ (0xF0 + c.toNat / 262144 - 0xF0) * 262144 + (0x80 + c.toNat / 4096 % 64 - 0x80) * 4096
              + (0x80 + c.toNat / 64 % 64 - 0x80) * 64 + (0x80 + c.toNat % 64 - 0x80) ∧
            (0xF0 + c.toNat / 262144 - 0xF0) * 262144 + (0x80 + c.toNat / 4096 % 64 - 0x80) * 4096
              + (0x80 + c.toNat / 64 % 64 - 0x80) * 64 + (0x80 + c.toNat % 64 - 0x80) < 0x110000 := by
          refine ⟨⟨?_, ?_⟩, ⟨?_, ?_⟩, ?_, ?_⟩
          · omega
          · simp [isCont]; omega
          · simp [isCont]; omega
          · simp [isCont]; omega
          · omega
          · omega
        simp only [utf8DecodeOne, if_neg hc1, if_neg hc2, if_neg hc3, if_pos hc4]
        rw [hn]

lemma utf8Decode_utf8Bytes (c : Char) (bs : List Nat) :
    utf8Decode (utf8Bytes c ++ bs) = (utf8Decode bs).map (fun cs => c :: cs) := by
  rw [utf8Decode_step _ _ _ (utf8DecodeOne_utf8Bytes c bs), Char.ofNat_toNat]

lemma utf8Decode_listBytes (l : List Char) : utf8Decode (listBytes l) = some l := by
  induction l with
  | nil => simpa [listBytes] using utf8Decode_nil
  | cons c cs ih =>
    simp only [listBytes, List.map_cons, List.flatten_cons] at *
    rw [utf8Decode_utf8Bytes, ih]
    rfl


lemma hexVal_hexDigitChar (n : Nat) (h : n < 16) : hexVal (hexDigitChar n) = some n := by
  interval_cases n <;> decide

lemma isUnreservedByte_facts (b : Nat) (h : isUnreservedByte b = true) : b < 0x80 ∧ b ≠ 37 := by
  revert h; simp [isUnreservedByte]; omega

lemma char_ofNat_toNat_of_lt (b : Nat) (h : b < 0xD800) : (Char.ofNat b).toNat = b := by
  have hv : b.isValidChar := Or.inl h
  simp only [Char.ofNat, dif_pos hv]
  rfl

lemma percentDecodeBytes_cons_ne (c : Char) (cs : List Char) (h : ¬ c = '%') :
    percentDecodeBytes (c :: cs) = (percentDecodeBytes cs).map (fun bs => c.toNat :: bs) := by
  rw [percentDecodeBytes.eq_def]
  simp [h]

lemma percentDecodeBytes_percent (c1 c2 : Char) (cs : List Char) (h1 l1 : Nat)
    (hh : hexVal c1 = some h1) (hl : hexVal c2 = some l1) :
    percentDecodeBytes ('%' :: c1 :: c2 :: cs) =
      (percentDecodeBytes cs).map (fun bs => (h1 * 16 + l1) :: bs) := by
  rw [percentDecodeBytes.eq_def]
  simp [hh, hl]

lemma percentDecodeBytes_encodeByte (b : Nat) (hb : b < 256) (cs : List Char) :
    percentDecodeBytes (encodeByte b ++ cs) = (percentDecodeBytes cs).map (fun bs => b :: bs) := by
  by_cases hu : isUnreservedByte b
  · obtain ⟨hlt, hne37⟩ := isUnreservedByte_facts b hu
    have htn : (Char.ofNat b).toNat = b := char_ofNat_toNat_of_lt b (by omega)
    have hne : ¬ (Char.ofNat b = '%') := by
      intro he
      apply hne37
      have h37 : (Char.ofNat b).toNat = ('%' : Char).toNat := by rw [he]
      rw [htn] at h37
      simpa using h37
    simp only [encodeByte, if_pos hu, List.cons_append, List.nil_append]
    rw [percentDecodeBytes_cons_ne _ _ hne, htn]
  · have h16 : b / 16 < 16 := by omega
    have h16b : b % 16 < 16 := by omega
    simp only [encodeByte, if_neg hu, List.cons_append, List.nil_append]
    rw [percentDecodeBytes_percent _ _ _ _ _ (hexVal_hexDigitChar _ h16) (hexVal_hexDigitChar _ h16b)]
    have hbe : b / 16 * 16 + b % 16 = b := by omega
    rw [hbe]

lemma percentDecodeBytes_encode (bs : List Nat) (h : ∀ b ∈ bs, b < 256) :
    percentDecodeBytes ((bs.map encodeByte)).flatten = some bs := by
  induction bs with
  | nil => rfl
  | cons b rest ih =>
    simp only [List.map_cons, List.flatten_cons]
    rw [percentDecodeBytes_encodeByte b (h b (List.mem_cons_self b rest)) _]
    rw [ih (fun x hx => h x (List.mem_cons_of_mem b hx))]
    rfl

lemma strBytes_lt (s : String) : ∀ b ∈ strBytes s, b < 256 := by
  intro b hb
  simp only [strBytes, listBytes, List.mem_flatten] at hb
  obtain ⟨l, hl, hbl⟩ := hb
  simp only [List.mem_map] at hl
  obtain ⟨c, _, rfl⟩ := hl
  exact utf8Bytes_lt c b hbl

theorem percentDecode_encode (s : String) : percentDecode (encode s) = some s := by
  have hdata : (encode s).data = ((strBytes s).map encodeByte).flatten := rfl
  rw [percentDecode, hdata, percentDecodeBytes_encode _ (strBytes_lt s)]
  simp only [Option.some_bind]
  rw [strBytes, utf8Decode_listBytes]
  rfl


/-! ### The claims -/

/-- C1: `provider_factory` maps `"weatherapi"` to the WeatherApi (ServiceB)
implementation and `"openweather"` to the OpenWeather (ServiceA) implementation,
and for every other configured name it fails with `UnsupportedProvider` carrying
the offending name. -/
theorem claim_C1 :
    (∀ env : Env, provider_factory ⟨"weatherapi"⟩ env =
      (WeatherApiProvider.from_env env).map ProviderHandle.weatherApi) ∧
    (∀ env : Env, provider_factory ⟨"openweather"⟩ env =
      (OpenWeatherProvider.from_env env).map ProviderHandle.openWeather) ∧
    (∀ (name : String) (env : Env), name ≠ "weatherapi" → name ≠ "openweather" →
      provider_factory ⟨name⟩ env = .error (.unsupportedProvider name)) := by
  refine ⟨fun env => rfl, fun env => rfl, fun name env h1 h2 => ?_⟩
  simp [provider_factory, h1, h2]

/-- Witness for C1 at the concrete unsupported name `"noaa"`. -/
theorem claim_C1_witness :
    provider_factory ⟨"noaa"⟩ (fun _ => none) = .error (.unsupportedProvider "noaa") :=
  claim_C1.2.2 "noaa" (fun _ => none) (by decide) (by decide)

/-- C2: for the OpenWeather provider (ServiceA), `get_data` with kind
`"forecast"` and with kind `"tomorrow"` constructs identical request URLs for
every city and stored config (no day-count parameter exists). -/
theorem claim_C2 (p : OpenWeatherProvider) (city : String) :
    p.requestUrl city "forecast" = p.requestUrl city "tomorrow" := rfl

/-- C3: for the WeatherApi provider (ServiceB), `get_data` with kind
`"tomorrow"` constructs a URL containing `days=1` and with kind `"forecast"`
a URL containing `days=3`, and the two URLs are identical except for the value
of the `days` parameter (common prefix `pre` and common suffix `post`). -/
theorem claim_C3 (p : WeatherApiProvider) (city : String) :
    ∃ pre post,
      p.requestUrl city "tomorrow" = .ok (pre ++ "days=1" ++ post) ∧
      p.requestUrl city "forecast" = .ok (pre ++ "days=3" ++ post) := by
  refine ⟨p.base_url ++ "/forecast.json?key=" ++ p.api_key ++ "&q=" ++ encode city ++ "&",
    optParam "lang" p.lang, ?_, ?_⟩
  · exact congrArg Except.ok (by
      simp only [String.append_assoc]
      rw [← String.append_assoc "&days=", ← String.append_assoc "&"]
      rfl)
  · exact congrArg Except.ok (by
      simp only [String.append_assoc]
      rw [← String.append_assoc "&days=", ← String.append_assoc "&"]
      rfl)

/-- C4: for both providers and every city, `get_data` with any kind outside
`{"now", "forecast", "tomorrow"}` fails with `UnsupportedRequestKind` carrying
the offending kind.  In the embedding the error is produced by the URL
construction itself, before any HTTP transport is reached, and `from_env`
does not take the kind at all, so the check is per call, not at
construction. -/
theorem claim_C4 (pa : OpenWeatherProvider) (pb : WeatherApiProvider) (city kind : String)
    (h1 : kind ≠ "now") (h2 : kind ≠ "forecast") (h3 : kind ≠ "tomorrow") :
    pa.requestUrl city kind = .error (.unsupportedRequestKind kind) ∧
    pb.requestUrl city kind = .error (.unsupportedRequestKind kind) := by
  constructor <;>
    simp [OpenWeatherProvider.requestUrl, WeatherApiProvider.requestUrl, h1, h2, h3]

/-- Witness for C4 at the concrete unsupported kind `"yesterday"`. -/
theorem claim_C4_witness :
    (⟨"k", "b", none, none⟩ : OpenWeatherProvider).requestUrl "London" "yesterday" =
      .error (.unsupportedRequestKind "yesterday") ∧
    (⟨"k", "b", none⟩ : WeatherApiProvider).requestUrl "London" "yesterday" =
      .error (.unsupportedRequestKind "yesterday") :=
  claim_C4 ⟨"k", "b", none, none⟩ ⟨"k", "b", none⟩ "London" "yesterday"
    (by decide) (by decide) (by decide)

/-- C9: the kind argument is matched by exact case-sensitive string comparison
in both providers, so capitalization or whitespace variants of supported kinds
(`"Now"`, `"NOW"`, `"now "`, `"Forecast"`, `"TOMORROW"`) are rejected with the
unknown-request-kind error rather than treated as the supported kind. -/
theorem claim_C9 (pa : OpenWeatherProvider) (pb : WeatherApiProvider) (city : String) :
    pa.requestUrl city "Now" = .error (.unsupportedRequestKind "Now") ∧
    pb.requestUrl city "Now" = .error (.unsupportedRequestKind "Now") ∧
    pa.requestUrl city "NOW" = .error (.unsupportedRequestKind "NOW") ∧
    pb.requestUrl city "NOW" = .error (.unsupportedRequestKind "NOW") ∧
    pa.requestUrl city "now " = .error (.unsupportedRequestKind "now ") ∧
    pb.requestUrl city "now " = .error (.unsupportedRequestKind "now ") ∧
    pa.requestUrl city "Forecast" = .error (.unsupportedRequestKind "Forecast") ∧
    pb.requestUrl city "Forecast" = .error (.unsupportedRequestKind "Forecast") ∧
    pa.requestUrl city "TOMORROW" = .error (.unsupportedRequestKind "TOMORROW") ∧
    pb.requestUrl city "TOMORROW" = .error (.unsupportedRequestKind "TOMORROW") :=
  ⟨rfl, rfl, rfl, rfl, rfl, rfl, rfl, rfl, rfl, rfl⟩

/-- C5: for every city (spaces, reserved characters and non-ASCII included)
and every supported kind, the city appears percent-encoded in the URL built by
either provider (the URL splits as `pre ++ encode city ++ post`), and
percent-decoding that encoded segment recovers the original city exactly. -/
theorem claim_C5 (kind : String)
    (hk : kind = "now" ∨ kind = "forecast" ∨ kind = "tomorrow")
    (pa : OpenWeatherProvider) (pb : WeatherApiProvider) (city : String) :
    (∃ pre post, pa.requestUrl city kind = .ok (pre ++ encode city ++ post)) ∧
    (∃ pre post, pb.requestUrl city kind = .ok (pre ++ encode city ++ post)) ∧
    percentDecode (encode city) = some city := by
  refine ⟨?_, ?_, percentDecode_encode city⟩
  · rcases hk with h | h | h <;> subst h
    · exact ⟨pa.base_url ++ "/weather?q=",
        "&appid=" ++ pa.api_key ++ optParam "units" pa.units ++ optParam "lang" pa.lang,
        congrArg Except.ok (by simp only [String.append_assoc])⟩
    · exact ⟨pa.base_url ++ "/forecast?q=",
        "&appid=" ++ pa.api_key ++ optParam "units" pa.units ++ optParam "lang" pa.lang,
        congrArg Except.ok (by simp only [String.append_assoc])⟩
    · exact ⟨pa.base_url ++ "/forecast?q=",
        "&appid=" ++ pa.api_key ++ optParam "units" pa.units ++ optParam "lang" pa.lang,
        congrArg Except.ok (by simp only [String.append_assoc])⟩
  · rcases hk with h | h | h <;> subst h
    · exact ⟨pb.base_url ++ "/current.json?key=" ++ pb.api_key ++ "&q=",
        optParam "lang" pb.lang,
        congrArg Except.ok (by simp only [String.append_assoc])⟩
    · exact ⟨pb.base_url ++ "/forecast.json?key=" ++ pb.api_key ++ "&q=",
        "&days=3" ++ optParam "lang" pb.lang,
        congrArg Except.ok (by
          simp only [String.append_assoc]
          rw [← String.append_assoc "&days="]
          rfl)⟩
    · exact ⟨pb.base_url ++ "/forecast.json?key=" ++ pb.api_key ++ "&q=",
        "&days=1" ++ optParam "lang" pb.lang,
        congrArg Except.ok (by
          simp only [String.append_assoc]
          rw [← String.append_assoc "&days="]
          rfl)⟩

/-- Witness for C5 at kind `"now"` and the non-ASCII city `"São Paulo"`. -/
theorem claim_C5_witness :
    (∃ pre post, (⟨"k", "b", none, none⟩ : OpenWeatherProvider).requestUrl "São Paulo" "now" =
      .ok (pre ++ encode "São Paulo" ++ post)) ∧
    (∃ pre post, (⟨"k", "b", none⟩ : WeatherApiProvider).requestUrl "São Paulo" "now" =
      .ok (pre ++ encode "São Paulo" ++ post)) ∧
    percentDecode (encode "São Paulo") = some "São Paulo" :=
  claim_C5 "now" (Or.inl rfl) ⟨"k", "b", none, none⟩ ⟨"k", "b", none⟩ "São Paulo"

/-- C6: for each provider's `from_env`, if the required credential variable
(`OPENWEATHER_KEY` / `WEATHERAPI_KEY`) is absent, construction fails with the
missing-credential error; if it is present, construction succeeds regardless
of the optional variables, and `provider_factory` with the matching supported
name succeeds and yields a handle implementing the contract. -/
theorem claim_C6 :
    (∀ env : Env, env "OPENWEATHER_KEY" = none →
      OpenWeatherProvider.from_env env = .error (.missingCredential "OPENWEATHER_KEY")) ∧
    (∀ env : Env, env "WEATHERAPI_KEY" = none →
      WeatherApiProvider.from_env env = .error (.missingCredential "WEATHERAPI_KEY")) ∧
    (∀ (env : Env) (key : String), env "OPENWEATHER_KEY" = some key →
      ∃ p : OpenWeatherProvider, OpenWeatherProvider.from_env env = .ok p ∧ p.api_key = key) ∧
    (∀ (env : Env) (key : String), env "WEATHERAPI_KEY" = some key →
      ∃ p : WeatherApiProvider, WeatherApiProvider.from_env env = .ok p ∧ p.api_key = key) ∧
    (∀ (env : Env) (key : String), env "OPENWEATHER_KEY" = some key →
      ∃ p, provider_factory ⟨"openweather"⟩ env = .ok (.openWeather p)) ∧
    (∀ (env : Env) (key : String), env "WEATHERAPI_KEY" = some key →
      ∃ p, provider_factory ⟨"weatherapi"⟩ env = .ok (.weatherApi p)) := by
  refine ⟨fun env h => ?_, fun env h => ?_, fun env key h => ?_, fun env key h => ?_,
    fun env key h => ?_, fun env key h => ?_⟩
  · simp [OpenWeatherProvider.from_env, h]
  · simp [WeatherApiProvider.from_env, h]
  · exact ⟨⟨key, (env "OPENWEATHER_BASE_URL").getD "https://api.openweathermap.org/data/3.0",
      env "OPENWEATHER_UNITS", env "OPENWEATHER_LANG"⟩,
      by simp [OpenWeatherProvider.from_env, h], rfl⟩
  · exact ⟨⟨key, (env "WEATHERAPI_BASE_URL").getD "https://api.weatherapi.com/v1",
      env "WEATHERAPI_LANG"⟩,
      by simp [WeatherApiProvider.from_env, h], rfl⟩
  · exact ⟨⟨key, (env "OPENWEATHER_BASE_URL").getD "https://api.openweathermap.org/data/3.0",
      env "OPENWEATHER_UNITS", env "OPENWEATHER_LANG"⟩,
      by simp [provider_factory, OpenWeatherProvider.from_env, h, Except.map]⟩
  · exact ⟨⟨key, (env "WEATHERAPI_BASE_URL").getD "https://api.weatherapi.com/v1",
      env "WEATHERAPI_LANG"⟩,
      by simp [provider_factory, WeatherApiProvider.from_env, h, Except.map]⟩

/-- Witness for C6 on the empty environment. -/
theorem claim_C6_witness :
    OpenWeatherProvider.from_env (fun _ => none) =
      .error (.missingCredential "OPENWEATHER_KEY") :=
  claim_C6.1 (fun _ => none) rfl

/-- C7: if the optional base-URL variable is absent, `from_env` substitutes
the hardcoded provider-specific default base URL; whereas if an optional
modifier (units or lang) is absent, the corresponding query parameter is
omitted entirely from every URL `get_data` constructs — for each of the three
supported kinds of both providers the URL ends exactly where the remaining
parameters end, with no default value substituted. -/
theorem claim_C7 :
    (∀ (env : Env) (key : String), env "OPENWEATHER_KEY" = some key →
      env "OPENWEATHER_BASE_URL" = none →
      ∃ p : OpenWeatherProvider, OpenWeatherProvider.from_env env = .ok p ∧
        p.base_url = "https://api.openweathermap.org/data/3.0") ∧
    (∀ (env : Env) (key : String), env "WEATHERAPI_KEY" = some key →
      env "WEATHERAPI_BASE_URL" = none →
      ∃ p : WeatherApiProvider, WeatherApiProvider.from_env env = .ok p ∧
        p.base_url = "https://api.weatherapi.com/v1") ∧
    (∀ (p : OpenWeatherProvider) (city : String), p.units = none →
      p.requestUrl city "now" =
        .ok (p.base_url ++ "/weather?q=" ++ encode city ++ "&appid=" ++ p.api_key
          ++ optParam "lang" p.lang) ∧
      p.requestUrl city "forecast" =
        .ok (p.base_url ++ "/forecast?q=" ++ encode city ++ "&appid=" ++ p.api_key
          ++ optParam "lang" p.lang) ∧
      p.requestUrl city "tomorrow" =
        .ok (p.base_url ++ "/forecast?q=" ++ encode city ++ "&appid=" ++ p.api_key
          ++ optParam "lang" p.lang)) ∧
    (∀ (p : OpenWeatherProvider) (city : String), p.lang = none →
      p.requestUrl city "now" =
        .ok (p.base_url ++ "/weather?q=" ++ encode city ++ "&appid=" ++ p.api_key
          ++ optParam "units" p.units) ∧
      p.requestUrl city "forecast" =
        .ok (p.base_url ++ "/forecast?q=" ++ encode city ++ "&appid=" ++ p.api_key
          ++ optParam "units" p.units) ∧
      p.requestUrl city "tomorrow" =
        .ok (p.base_url ++ "/forecast?q=" ++ encode city ++ "&appid=" ++ p.api_key
          ++ optParam "units" p.units)) ∧
    (∀ (p : WeatherApiProvider) (city : String), p.lang = none →
      p.requestUrl city "now" =
        .ok (p.base_url ++ "/current.json?key=" ++ p.api_key ++ "&q=" ++ encode city) ∧
      p.requestUrl city "forecast" =
        .ok (p.base_url ++ "/forecast.json?key=" ++ p.api_key ++ "&q=" ++ encode city
          ++ "&days=" ++ "3") ∧
      p.requestUrl city "tomorrow" =
        .ok (p.base_url ++ "/forecast.json?key=" ++ p.api_key ++ "&q=" ++ encode city
          ++ "&days=" ++ "1")) := by
  refine ⟨fun env key h hb => ⟨⟨key,
      (env "OPENWEATHER_BASE_URL").getD "https://api.openweathermap.org/data/3.0",
      env "OPENWEATHER_UNITS", env "OPENWEATHER_LANG"⟩,
      by simp [OpenWeatherProvider.from_env, h], by rw [hb]; rfl⟩,
    fun env key h hb => ⟨⟨key,
      (env "WEATHERAPI_BASE_URL").getD "https://api.weatherapi.com/v1",
      env "WEATHERAPI_LANG"⟩,
      by simp [WeatherApiProvider.from_env, h], by rw [hb]; rfl⟩,
    fun p city h => ⟨?_, ?_, ?_⟩, fun p city h => ⟨?_, ?_, ?_⟩,
    fun p city h => ⟨?_, ?_, ?_⟩⟩
  · simp [OpenWeatherProvider.requestUrl, h, optParam, String.append_empty]
  · simp [OpenWeatherProvider.requestUrl, h, optParam, String.append_empty]
  · simp [OpenWeatherProvider.requestUrl, h, optParam, String.append_empty]
  · simp [OpenWeatherProvider.requestUrl, h, optParam, String.append_empty]
  · simp [OpenWeatherProvider.requestUrl, h, optParam, String.append_empty]
  · simp [OpenWeatherProvider.requestUrl, h, optParam, String.append_empty]
  · simp [WeatherApiProvider.requestUrl, h, optParam, String.append_empty]
  · simp [WeatherApiProvider.requestUrl, h, optParam, String.append_empty]
    rfl
  · simp [WeatherApiProvider.requestUrl, h, optParam, String.append_empty]
    rfl

/-- Witness for C7 on an environment carrying only the credential. -/
theorem claim_C7_witness :
    ∃ p : OpenWeatherProvider,
      OpenWeatherProvider.from_env
        (fun k => if k = "OPENWEATHER_KEY" then some "k" else none) = .ok p ∧
      p.base_url = "https://api.openweathermap.org/data/3.0" :=
  claim_C7.1 (fun k => if k = "OPENWEATHER_KEY" then some "k" else none) "k"
    (by decide) (by decide)

/-- C8: for kind `"now"`, ServiceA builds a URL on endpoint `/weather` with
query parameters `q` (the encoded city), `appid` (the key) and optionally
`units` and `lang`; ServiceB builds a URL on endpoint `/current.json` with
parameters `key`, `q` and optionally `lang` — the full URL shape is given, so
no `units` parameter is ever present for ServiceB. -/
theorem claim_C8 :
    (∀ (p : OpenWeatherProvider) (city : String),
      p.requestUrl city "now" = .ok (p.base_url ++ "/weather?q=" ++ encode city
        ++ "&appid=" ++ p.api_key
        ++ (match p.units with | some u => "&units=" ++ u | none => "")
        ++ (match p.lang with | some l => "&lang=" ++ l | none => ""))) ∧
    (∀ (p : WeatherApiProvider) (city : String),
      p.requestUrl city "now" = .ok (p.base_url ++ "/current.json?key=" ++ p.api_key
        ++ "&q=" ++ encode city
        ++ (match p.lang with | some l => "&lang=" ++ l | none => ""))) := by
  constructor
  · intro p city
    cases hu : p.units <;> cases hl : p.lang <;>
      simp [OpenWeatherProvider.requestUrl, optParam, hu, hl]
  · intro p city
    cases hl : p.lang <;> simp [WeatherApiProvider.requestUrl, optParam, hl]

/-- C10: only the city is percent-encoded; configured modifier values are
appended verbatim, so a modifier value containing reserved URL characters
(here `units = "a&b=c"`) yields a URL containing those characters unencoded,
and splitting that URL's query does not recover a well-formed single
parameter: the `units` parameter is cut at the embedded `&` and a spurious
`b=c` parameter appears. -/
theorem claim_C10 :
    (∀ (p : OpenWeatherProvider) (city u : String), p.units = some u →
      ∃ pre post, p.requestUrl city "now" = .ok (pre ++ "&units=" ++ u ++ post)) ∧
    (∀ (p : WeatherApiProvider) (city l : String), p.lang = some l →
      ∃ pre, p.requestUrl city "now" = .ok (pre ++ "&lang=" ++ l)) ∧
    ((⟨"k", "http://b", some "a&b=c", none⟩ : OpenWeatherProvider).requestUrl "city" "now" =
      .ok "http://b/weather?q=city&appid=k&units=a&b=c" ∧
     encode "a&b=c" ≠ "a&b=c" ∧
     queryParams "http://b/weather?q=city&appid=k&units=a&b=c" =
       ["q=city", "appid=k", "units=a", "b=c"]) := by
  refine ⟨?_, ?_, ?_, ?_, ?_⟩
  · intro p city u h
    refine ⟨p.base_url ++ "/weather?q=" ++ encode city ++ "&appid=" ++ p.api_key,
      optParam "lang" p.lang, ?_⟩
    have hrw : p.requestUrl city "now" =
        .ok (p.base_url ++ "/weather?q=" ++ encode city ++ "&appid=" ++ p.api_key
          ++ optParam "units" p.units ++ optParam "lang" p.lang) := rfl
    rw [hrw, h]
    simp [optParam, String.append_assoc]
  · intro p city l h
    refine ⟨p.base_url ++ "/current.json?key=" ++ p.api_key ++ "&q=" ++ encode city, ?_⟩
    have hrw : p.requestUrl city "now" =
        .ok (p.base_url ++ "/current.json?key=" ++ p.api_key ++ "&q=" ++ encode city
          ++ optParam "lang" p.lang) := rfl
    rw [hrw, h]
    simp [optParam, String.append_assoc]
  · rfl
  · decide
  · rfl

/-- Witness for C10's verbatim-append clause at the modifier `"a&b=c"`. -/
theorem claim_C10_witness :
    ∃ pre post, (⟨"k", "http://b", some "a&b=c", none⟩ : OpenWeatherProvider).requestUrl
      "city" "now" = .ok (pre ++ "&units=" ++ "a&b=c" ++ post) :=
  claim_C10.1 ⟨"k", "http://b", some "a&b=c", none⟩ "city" "a&b=c" rfl

end Wapp
